import Mathlib

/-!
Verification development for the telugu4nontelugu pipeline scripts
(`organize_ocr_content.py`, `process_scanned_chapters.py`,
`translate_chapters.py`).  The Python sources are shallowly embedded as
executable Lean definitions: filesystem, OCR and generative-model calls
become explicit function-valued parameters, exceptions become
`Option`/`Except` values, and the string-building code is reproduced
verbatim.
-/

/-! ## Page locator (`organize_ocr_content.get_file_content`)

The Python code compiles the regex `(^|[^0-9]){page_num}([^0-9]|$)` and
calls `pattern.search(filename)`.  We model the regex semantics directly:
an occurrence of the decimal digits of `page_num` whose neighbouring
characters (when they exist) are non-digits. -/

/-- Tail boundary of the regex `([^0-9]|$)`: the remaining text is empty or
starts with a non-digit. -/
def boundaryFree : List Char → Bool
  | [] => true
  | c :: _ => !c.isDigit

/-- Head boundary of the regex `(^|[^0-9])`: there is no previous character,
or the previous character is a non-digit. -/
def prevOk : Option Char → Bool
  | none => true
  | some c => !c.isDigit

/-- The pattern digits occur at the current position, followed by the
`([^0-9]|$)` boundary. -/
def matchHere : List Char → List Char → Bool
  | [], rest => boundaryFree rest
  | _ :: _, [] => false
  | p :: ps, c :: rest => (c == p) && matchHere ps rest

/-- Scan of `re.search`: try every start position, remembering the previous
character so the `(^|[^0-9])` boundary can be tested. -/
def searchFrom (pat : List Char) : Option Char → List Char → Bool
  | prev, [] => prevOk prev && matchHere pat []
  | prev, c :: rest => (prevOk prev && matchHere pat (c :: rest)) || searchFrom pat (some c) rest

/-- Whether the regex `(^|[^0-9]){page_num}([^0-9]|$)` of
`get_file_content` matches somewhere inside `filename`
(`pattern.search(filename)` is truthy). -/
def pageNumMatches (p : Nat) (filename : String) : Bool :=
  searchFrom (toString p).toList none filename.toList

/-- The character standing immediately before the matched token: the last
character of the text to the left of the token, or, when that text is empty,
the ambient previous character. -/
def lastOr (a : List Char) (prev : Option Char) : Option Char :=
  match a.getLast? with
  | some c => some c
  | none => prev

/-- Specification-side reading of the claim: `filename` contains the decimal
digits of `p` as a standalone numeric token, i.e. not preceded and not
followed by a further digit. -/
def standaloneToken (p : Nat) (f : String) : Prop :=
  ∃ a b, f.toList = a ++ (toString p).toList ++ b ∧
    prevOk (lastOr a none) = true ∧ boundaryFree b = true

theorem lastOr_cons (c : Char) (a : List Char) (prev : Option Char) :
    lastOr (c :: a) prev = lastOr a (some c) := by
  cases a with
  | nil => rfl
  | cons d a' =>
    show lastOr (c :: d :: a') prev = lastOr (d :: a') (some c)
    unfold lastOr
    cases h : (d :: a').getLast? with
    | none =>
      exact absurd h (by
        have : (d :: a').getLast?.isSome = true := List.getLast?_isSome.mpr (by simp)
        intro hn
        rw [hn] at this
        simp at this)
    | some x =>
      have : (c :: d :: a').getLast? = some x := by
        rw [List.getLast?_cons_cons]
        exact h
      rw [this]

theorem matchHere_iff (pat cs : List Char) :
    matchHere pat cs = true ↔ ∃ b, cs = pat ++ b ∧ boundaryFree b = true := by
  induction pat generalizing cs with
  | nil =>
    constructor
    · intro h
      exact ⟨cs, rfl, h⟩
    · rintro ⟨b, rfl, h⟩
      exact h
  | cons p ps ih =>
    cases cs with
    | nil =>
      simp [matchHere]
    | cons c rest =>
      constructor
      · intro h
        have hcp : c = p := by
          have := (Bool.and_eq_true _ _).mp h |>.1
          exact beq_iff_eq.mp this
        have hm : matchHere ps rest = true := (Bool.and_eq_true _ _).mp h |>.2
        obtain ⟨b, hb, hbf⟩ := (ih rest).mp hm
        exact ⟨b, by simp [hcp, hb], hbf⟩
      · rintro ⟨b, hb, hbf⟩
        have hb' : c :: rest = p :: (ps ++ b) := by simpa using hb
        have hcp : c = p := by injection hb'
        have hrest : rest = ps ++ b := by injection hb'
        show ((c == p) && matchHere ps rest) = true
        rw [hcp, hrest]
        simp only [beq_self_eq_true, Bool.true_and]
        exact (ih (ps ++ b)).mpr ⟨b, rfl, hbf⟩

theorem searchFrom_iff (pat : List Char) (prev : Option Char) (cs : List Char) :
    searchFrom pat prev cs = true ↔
      ∃ a b, cs = a ++ pat ++ b ∧ prevOk (lastOr a prev) = true ∧ boundaryFree b = true := by
  induction cs generalizing prev with
  | nil =>
    constructor
    · intro h
      have h1 : prevOk prev = true := (Bool.and_eq_true _ _).mp h |>.1
      have h2 : matchHere pat [] = true := (Bool.and_eq_true _ _).mp h |>.2
      obtain ⟨b, hb, hbf⟩ := (matchHere_iff pat []).mp h2
      have hpat : pat = [] := by
        cases pat with
        | nil => rfl
        | cons x xs => simp at hb
      subst hpat
      have hb' : b = [] := by simpa using hb.symm
      subst hb'
      exact ⟨[], [], rfl, h1, rfl⟩
    · rintro ⟨a, b, hab, h1, h2⟩
      have := List.append_eq_nil.mp (hab.symm)
      have ha : a = [] := List.append_eq_nil.mp this.1 |>.1
      have hp : pat = [] := List.append_eq_nil.mp this.1 |>.2
      have hbnil : b = [] := this.2
      subst ha; subst hp; subst hbnil
      show (prevOk prev && matchHere [] []) = true
      simpa [matchHere, boundaryFree, lastOr] using h1
  | cons c rest ih =>
    constructor
    · intro h
      rcases (Bool.or_eq_true _ _).mp h with h' | h'
      · have h1 : prevOk prev = true := (Bool.and_eq_true _ _).mp h' |>.1
        have h2 := (matchHere_iff pat (c :: rest)).mp ((Bool.and_eq_true _ _).mp h' |>.2)
        obtain ⟨b, hb, hbf⟩ := h2
        exact ⟨[], b, by simpa using hb, by simpa [lastOr] using h1, hbf⟩
      · obtain ⟨a, b, hab, h1, h2⟩ := (ih (some c)).mp h'
        refine ⟨c :: a, b, ?_, ?_, h2⟩
        · simp [hab]
        · rw [lastOr_cons]; exact h1
    · rintro ⟨a, b, hab, h1, h2⟩
      cases a with
      | nil =>
        have hm : matchHere pat (c :: rest) = true :=
          (matchHere_iff pat (c :: rest)).mpr ⟨b, by simpa using hab, h2⟩
        have hp : prevOk prev = true := by simpa [lastOr] using h1
        exact (Bool.or_eq_true _ _).mpr (Or.inl ((Bool.and_eq_true _ _).mpr ⟨hp, hm⟩))
      | cons c' a' =>
        obtain ⟨hc1, hc2⟩ : c = c' ∧ rest = a' ++ pat ++ b := by
          simpa using hab
        refine (Bool.or_eq_true _ _).mpr (Or.inr ((ih (some c)).mpr ⟨a', b, hc2, ?_, h2⟩))
        rw [← lastOr_cons c a' prev]
        rw [hc1]
        exact h1

/-- The regex search of `get_file_content` matches exactly the filenames
containing the page number as a standalone numeric token. -/
theorem pageNumMatches_iff (p : Nat) (f : String) :
    pageNumMatches p f = true ↔ standaloneToken p f := by
  unfold pageNumMatches standaloneToken
  exact searchFrom_iff (toString p).toList none f.toList

/-! ## Directory model and `get_file_content`

`get_file_content` first tests `os.path.exists(INPUT_DIR)`; on a missing
directory it logs an error and returns `""`.  Otherwise it walks
`os.listdir` in listing order, and for the first filename matched by the
regex tries to read it; a read exception is logged and the scan continues
with the remaining filenames. -/

/-- The configured input directory of `organize_ocr_content.py`:
whether it exists, its listing (in `os.listdir` order) and the outcome of
reading each file (`none` models a raised read exception). -/
structure InputDir where
  dirExists : Bool
  files : List String
  readFile : String → Option String

/-- Result of one `get_file_content` call: the returned string and the
lines it printed. -/
structure LocResult where
  content : String
  logs : List String
deriving DecidableEq

/-- Log line for a missing input directory. -/
def dirMissingLog : String :=
  "❌ Error: Input folder \x27ocr_files\x27 does not exist."

/-- Log line for a located page file. -/
def foundLog (p : Nat) (filename : String) : String :=
  "   found page " ++ toString p ++ " -> " ++ filename

/-- Log line for a read exception. -/
def readErrLog (filename msg : String) : String :=
  "   ⚠️ Error reading " ++ filename ++ ": " ++ msg

/-- Log line when no file for the page was found. -/
def notFoundLog (p : Nat) : String :=
  "   ⚠️ Warning: No file found for page " ++ toString p

/-- The scan loop of `get_file_content`: first regex-matched filename that
reads successfully wins; read failures are logged and skipped; if nothing
succeeds the warning is logged and `""` returned. -/
def findContent (rd : String → Option String) (p : Nat) : List String → LocResult
  | [] => ⟨"", [notFoundLog p]⟩
  | f :: fs =>
    if pageNumMatches p f then
      match rd ("ocr_files/" ++ f) with
      | some c => ⟨c, [foundLog p f]⟩
      | none =>
        let r := findContent rd p fs
        ⟨r.content, readErrLog f "read error" :: r.logs⟩
    else findContent rd p fs

/-- Embedding of `get_file_content(page_num)`: returned string plus log. -/
def get_file_content_run (d : InputDir) (p : Nat) : LocResult :=
  if d.dirExists then findContent d.readFile p d.files
  else ⟨"", [dirMissingLog]⟩

/-- The string `get_file_content` returns. -/
def get_file_content (d : InputDir) (p : Nat) : String :=
  (get_file_content_run d p).content

/-! ## Markdown assembly (`organize_ocr_content.main`) -/

/-- Plain concatenation (Python `+=` accumulation / `"".join`). -/
def strJoin : List String → String
  | [] => ""
  | s :: ss => s ++ strJoin ss

/-- The inclusive page range `range(start, end + 1)` of a chapter. -/
def pageRange (ps pe : Nat) : List Nat :=
  List.range' ps (pe + 1 - ps)

/-- The page-delimiter block prefix `"\n\n--- Page {page} ---\n\n"`. -/
def pageDelim (p : Nat) : String :=
  "\n\n--- Page " ++ toString p ++ " ---\n\n"

/-- The lesson document title line `"# 📖 Lesson Content ({s}-{e})\n\n"`. -/
def lessonHeader (ps pe : Nat) : String :=
  "# 📖 Lesson Content (" ++ toString ps ++ "-" ++ toString pe ++ ")\n\n"

/-- The exercise document title line `"# ✍️ Exercises ({s}-{e})\n\n"`. -/
def exerciseHeader (ps pe : Nat) : String :=
  "# ✍️ Exercises (" ++ toString ps ++ "-" ++ toString pe ++ ")\n\n"

/-- The accumulation loop of `main`: starting from the title header, append
the delimiter block and page text for every page of the range. -/
def full_lesson_text (content : Nat → String) (ps pe : Nat) : String :=
  (pageRange ps pe).foldl (fun acc p => acc ++ (pageDelim p ++ content p)) (lessonHeader ps pe)

/-- Same loop for the exercise document. -/
def full_exercise_text (content : Nat → String) (ps pe : Nat) : String :=
  (pageRange ps pe).foldl (fun acc p => acc ++ (pageDelim p ++ content p)) (exerciseHeader ps pe)

/-- The chapter table of `organize_ocr_content.py`:
folder name, lesson range, exercise range. -/
def CHAPTER_MAPPING : List (String × (Nat × Nat) × (Nat × Nat)) :=
  [("06_Shataka_Padyalu", ((67, 70), (70, 74))),
   ("07_Sankranthi_Sandesham", ((75, 76), (77, 80))),
   ("08_Kanuvippu", ((81, 84), (84, 88))),
   ("09_Ramappa", ((89, 92), (92, 96))),
   ("10_Shibi_Chakravarti", ((97, 99), (100, 104)))]

/-- Output file path: `os.path.join("class5", folder, name)`. -/
def outputPath (folder name : String) : String :=
  "class5/" ++ folder ++ "/" ++ name

/-- The list of `(path, bytes)` writes performed by one run of
`organize_ocr_content.main` over input directory `d`, in program order. -/
def runWrites (d : InputDir) : List (String × String) :=
  CHAPTER_MAPPING.flatMap (fun e =>
    [(outputPath e.1 "lesson.md",
      full_lesson_text (fun p => get_file_content d p) e.2.1.1 e.2.1.2),
     (outputPath e.1 "exercise.md",
      full_exercise_text (fun p => get_file_content d p) e.2.2.1 e.2.2.2)])

/-! ## Filesystem write model (mode `"w"`, truncate and overwrite) -/

/-- A flat filesystem: path to current contents. -/
def FS : Type := String → Option String

/-- A single `open(path, "w")` write: replaces the file contents. -/
def fsWrite (fs : FS) (p c : String) : FS :=
  fun q => if q = p then some c else fs q

/-- Apply a list of writes in order. -/
def applyWrites (fs : FS) : List (String × String) → FS
  | [] => fs
  | (p, c) :: ws => applyWrites (fsWrite fs p c) ws

/-- The last write to a given path in a write list, if any. -/
def lastWrite : List (String × String) → String → Option String
  | [], _ => none
  | (p, c) :: ws, q =>
    match lastWrite ws q with
    | some c2 => some c2
    | none => if q = p then some c else none

theorem applyWrites_apply (ws : List (String × String)) (fs : FS) (q : String) :
    applyWrites fs ws q =
      match lastWrite ws q with
      | some c => some c
      | none => fs q := by
  induction ws generalizing fs with
  | nil => rfl
  | cons w ws ih =>
    obtain ⟨p, c⟩ := w
    show applyWrites (fsWrite fs p c) ws q = _
    rw [ih]
    have hl : lastWrite ((p, c) :: ws) q =
        match lastWrite ws q with
        | some c2 => some c2
        | none => if q = p then some c else none := rfl
    rw [hl]
    cases h : lastWrite ws q with
    | some c2 => rfl
    | none =>
      show fsWrite fs p c q = _
      by_cases hq : q = p <;> simp [fsWrite, hq]

theorem applyWrites_idem (ws : List (String × String)) (fs : FS) :
    applyWrites (applyWrites fs ws) ws = applyWrites fs ws := by
  funext q
  rw [applyWrites_apply, applyWrites_apply]
  cases h : lastWrite ws q <;> rfl

/-- Folding `acc ++ f x` over a list equals the initial accumulator followed
by the concatenation of the pieces. -/
theorem foldl_append_eq_join {α : Type} (f : α → String) (l : List α) (init : String) :
    l.foldl (fun acc x => acc ++ f x) init = init ++ strJoin (l.map f) := by
  induction l generalizing init with
  | nil => simp [strJoin, String.append_empty]
  | cons a l ih =>
    show l.foldl (fun acc x => acc ++ f x) (init ++ f a) = _
    rw [ih]
    simp [strJoin, String.append_assoc]

/-! ## Image OCR (`process_scanned_chapters.get_ocr_text`)

The function tries the zero-padded candidate `page-{p:03d}.png` first,
then the unpadded `page-{p}.png`, inside `scanned_images/`.  No existing
candidate yields the blank placeholder `"\n\n\n\n"`; an OCR exception on a
found image is caught and yields `""`. -/

/-- Python `f"{n:03d}"`: decimal representation zero-padded to width 3. -/
def pad3 (n : Nat) : String :=
  let s := toString n
  if s.length < 3 then String.mk (List.replicate (3 - s.length) '0') ++ s else s

/-- The image filename candidates tried by `get_ocr_text`, in order. -/
def ocrCandidates (p : Nat) : List String :=
  ["page-" ++ pad3 p ++ ".png", "page-" ++ toString p ++ ".png"]

/-- The image store seen by `process_scanned_chapters.py`: which paths
exist, and the OCR outcome per path (`none` models a raised exception). -/
structure ImgDir where
  pathExists : String → Bool
  ocr : String → Option String

/-- Embedding of `get_ocr_text(page_num)`. -/
def get_ocr_text (d : ImgDir) (p : Nat) : String :=
  match (ocrCandidates p).find? (fun c => d.pathExists ("scanned_images/" ++ c)) with
  | none => "\n\n\n\n"
  | some c =>
    match d.ocr ("scanned_images/" ++ c) with
    | some text => text
    | none => ""

/-! ## Python values and the JSON payload parser (`translate_chapters.py`)

`generate_data` carves the substring between the first `'{'` and the last
`'}'` out of the model response, doubles every backslash, and hands the
result to `json.loads`.  Both the explicit `raise` for a missing brace and
a `json.loads` failure produce a `json.JSONDecodeError`.  The model of
`json.loads` below covers JSON objects, arrays, strings (without `\u`
escapes), integers, booleans and null, which is the payload shape this
script works with. -/

/-- A Python value as produced by `json.loads`. -/
inductive PyVal where
  | str (s : String)
  | int (n : Int)
  | bool (b : Bool)
  | none_
  | list (xs : List PyVal)
  | dict (kvs : List (String × PyVal))

/-- Kind (class) of a raised Python exception. -/
inductive PyExcKind where
  | JSONDecodeError
  | AttributeError
deriving DecidableEq

/-- A raised Python exception: its class and message. -/
structure PyExc where
  kind : PyExcKind
  msg : String
deriving DecidableEq

/-- Skip JSON whitespace. -/
def jskipWs : List Char → List Char
  | [] => []
  | c :: cs => if c == ' ' || c == '\t' || c == '\n' || c == '\r' then jskipWs cs else c :: cs

/-- Decode one JSON string escape character: the three self-escapes
(quote, backslash, slash) and the named control characters. -/
def escChar (e : Char) : Option Char :=
  if e == '"' || e == '\\' || e == '/' then some e
  else if e == 'n' then some '\n'
  else if e == 't' then some '\t'
  else if e == 'r' then some '\r'
  else if e == 'b' then some (Char.ofNat 8)
  else if e == 'f' then some (Char.ofNat 12)
  else none

/-- Parse the body of a JSON string after the opening quote; returns the
content and the text after the closing quote. -/
def jstr : List Char → Option (List Char × List Char)
  | [] => none
  | '"' :: rest => some ([], rest)
  | '\\' :: e :: rest =>
    match escChar e, jstr rest with
    | some c, some (s, r) => some (c :: s, r)
    | _, _ => none
  | c :: rest =>
    match jstr rest with
    | some (s, r) => some (c :: s, r)
    | none => none

/-- Split a leading run of decimal digits. -/
def jdigits : List Char → List Char × List Char
  | [] => ([], [])
  | c :: cs =>
    if c.isDigit then
      let (d, r) := jdigits cs
      (c :: d, r)
    else ([], c :: cs)

/-- Numeric value of a digit run. -/
def digitsVal (ds : List Char) : Nat :=
  ds.foldl (fun n c => n * 10 + (c.toNat - 48)) 0

/-- Parse a JSON integer (optional minus sign followed by digits). -/
def jnumber : List Char → Option (PyVal × List Char)
  | '-' :: cs =>
    match jdigits cs with
    | ([], _) => none
    | (ds, r) => some (.int (-(digitsVal ds : Int)), r)
  | cs =>
    match jdigits cs with
    | ([], _) => none
    | (ds, r) => some (.int (digitsVal ds), r)

/-- Comma-separated JSON array elements (at least one), given a parser for
single values; `fuel` bounds the number of elements. -/
def jitemsGo (jv : List Char → Option (PyVal × List Char)) :
    Nat → List Char → Option (List PyVal × List Char)
  | 0, _ => none
  | Nat.succ fuel, cs =>
    match jv cs with
    | none => none
    | some (v, r) =>
      match jskipWs r with
      | ',' :: r2 =>
        match jitemsGo jv fuel r2 with
        | some (vs, r3) => some (v :: vs, r3)
        | none => none
      | ']' :: r2 => some ([v], r2)
      | _ => none

/-- Comma-separated JSON object members (at least one). -/
def jmembersGo (jv : List Char → Option (PyVal × List Char)) :
    Nat → List Char → Option (List (String × PyVal) × List Char)
  | 0, _ => none
  | Nat.succ fuel, cs =>
    match cs with
    | '"' :: rest =>
      match jstr rest with
      | none => none
      | some (k, r) =>
        match jskipWs r with
        | ':' :: r2 =>
          match jv (jskipWs r2) with
          | none => none
          | some (v, r3) =>
            match jskipWs r3 with
            | ',' :: r4 =>
              match jmembersGo jv fuel (jskipWs r4) with
              | some (kvs, r5) => some ((String.mk k, v) :: kvs, r5)
              | none => none
            | '\x7d' :: r4 => some ([(String.mk k, v)], r4)
            | _ => none
        | _ => none
    | _ => none

/-- Does `pat` occur as a prefix of `s`? -/
def startsWithList : List Char → List Char → Bool
  | [], _ => true
  | _ :: _, [] => false
  | p :: ps, c :: cs => (c == p) && startsWithList ps cs

/-- Strip a literal keyword (`true`, `false`, `null`) from the front of the
text, when present. -/
def stripKw (kw : String) (cs : List Char) : Option (List Char) :=
  if startsWithList kw.toList cs then some (cs.drop kw.length) else none

/-- Parse one of the three JSON keyword literals. -/
def jkeyword (cs : List Char) : Option (PyVal × List Char) :=
  match stripKw "true" cs with
  | some r => some (.bool true, r)
  | none =>
    match stripKw "false" cs with
    | some r => some (.bool false, r)
    | none =>
      match stripKw "null" cs with
      | some r => some (.none_, r)
      | none => none

/-- Parse one JSON value; `fuel` bounds the nesting depth. -/
def jvalueFuel : Nat → List Char → Option (PyVal × List Char)
  | 0, _ => none
  | Nat.succ fuel, cs =>
    match jskipWs cs with
    | [] => none
    | '"' :: rest =>
      match jstr rest with
      | some (s, r) => some (.str (String.mk s), r)
      | none => none
    | '[' :: rest =>
      match jskipWs rest with
      | ']' :: r2 => some (.list [], r2)
      | r2 =>
        match jitemsGo (jvalueFuel fuel) (r2.length + 1) r2 with
        | some (vs, r3) => some (.list vs, r3)
        | none => none
    | '\x7b' :: rest =>
      match jskipWs rest with
      | '\x7d' :: r2 => some (.dict [], r2)
      | r2 =>
        match jmembersGo (jvalueFuel fuel) (r2.length + 1) r2 with
        | some (kvs, r3) => some (.dict kvs, r3)
        | none => none
    | c :: rest =>
      match jkeyword (c :: rest) with
      | some vr => some vr
      | none => if c == '-' || c.isDigit then jnumber (c :: rest) else none

/-- Model of `json.loads`: parse a complete JSON document, raising
`json.JSONDecodeError` when parsing fails or trailing data remains. -/
def json_loads (s : String) : Except PyExc PyVal :=
  match jvalueFuel (s.length + 1) s.toList with
  | some (v, r) =>
    if jskipWs r = [] then .ok v
    else .error ⟨.JSONDecodeError, "Extra data"⟩
  | none => .error ⟨.JSONDecodeError, "Expecting value"⟩

/-- Python `str.find(ch)`: index of the first occurrence, `-1` if absent. -/
def pyFind (s : String) (ch : Char) : Int :=
  match List.findIdx? (fun x => x == ch) s.toList with
  | some i => (i : Int)
  | none => -1

/-- Python `str.rfind(ch)`: index of the last occurrence, `-1` if absent. -/
def pyRfind (s : String) (ch : Char) : Int :=
  match List.findIdx? (fun x => x == ch) s.toList.reverse with
  | some i => (s.length : Int) - 1 - (i : Int)
  | none => -1

/-- Python slice `s[i:j]` for non-negative bounds. -/
def pySlice (s : String) (i j : Int) : String :=
  String.mk ((s.toList.drop i.toNat).take (j.toNat - i.toNat))

/-- The `.replace('\\', '\\\\')` repair pass: double every backslash. -/
def doubleBackslashes : List Char → List Char
  | [] => []
  | c :: cs =>
    if c == '\\' then '\\' :: '\\' :: doubleBackslashes cs
    else c :: doubleBackslashes cs

/-- `json_response.replace('\\', '\\\\')` on strings. -/
def fixBackslashes (s : String) : String :=
  String.mk (doubleBackslashes s.toList)

/-- The response-to-JSON step inside one `generate_data` attempt: find the
first `'{'` and last `'}'`, raise `json.JSONDecodeError` when either is
missing, else slice the candidate payload, double backslashes, and run
`json.loads`. -/
def parse_model_response (text : String) : Except PyExc PyVal :=
  let start_index := pyFind text '\x7b'
  let end_index := pyRfind text '\x7d'
  if start_index == -1 || end_index == -1 then
    .error ⟨.JSONDecodeError, "Could not find JSON object in response."⟩
  else
    json_loads (fixBackslashes (pySlice text start_index (end_index + 1)))

/-- Kind of the exception carried by an `Except` outcome, if failed. -/
def exceptKind (r : Except PyExc PyVal) : Option PyExcKind :=
  match r with
  | .error e => some e.kind
  | .ok _ => none

/-! ## The retry loop of `generate_data`

Each attempt calls the external model; the call can raise a transient
server error (`ResourceExhausted` / `InternalServerError`, first `except`
arm: log, sleep 20s, next attempt) or some other exception (second arm:
re-raise on the last attempt, else sleep 5s).  A successful call yields a
response text which then goes through `parse_model_response`; a parse
failure raises and is handled by the second arm.  If the loop finishes all
`max_retries` iterations without returning, the function returns `None`. -/

/-- What the external `model.generate_content` call does on one attempt. -/
inductive CallResult where
  | resp (text : String)
  | raiseServer (msg : String)
  | raiseOther (msg : String)

/-- Outcome of one iteration body of the retry loop. -/
inductive AttemptResult where
  | ok (v : PyVal)
  | errServer (msg : String)
  | errOther (msg : String)

/-- How `generate_data` returns to its caller. -/
inductive GenResult where
  | retSome (v : PyVal)
  | retNone
  | raised (msg : String)

/-- `true` exactly when the outcome is a propagated exception. -/
def GenResult.isRaised : GenResult → Bool
  | .raised _ => true
  | _ => false

/-- Trace of one `generate_data` call: how many attempts ran, the
`time.sleep` durations in order, and the final outcome. -/
structure GenTrace where
  attempts : Nat
  sleeps : List Nat
  result : GenResult

/-- One iteration body: call the model, then extract and parse the JSON
payload; a parse failure is an ordinary exception (second `except` arm). -/
def attemptOutcome (c : CallResult) : AttemptResult :=
  match c with
  | .resp t =>
    match parse_model_response t with
    | .ok v => .ok v
    | .error e => .errOther e.msg
  | .raiseServer m => .errServer m
  | .raiseOther m => .errOther m

/-- `max_retries` of `generate_data`. -/
def max_retries : Nat := 3

/-- The `for attempt in range(max_retries)` loop: `attempt` is the current
index, the second argument the remaining iterations. -/
def genGo (behav : Nat → AttemptResult) : Nat → Nat → GenTrace
  | _, 0 => ⟨0, [], .retNone⟩
  | attempt, Nat.succ rem =>
    match behav attempt with
    | .ok v => ⟨1, [], .retSome v⟩
    | .errServer _ =>
      let t := genGo behav (attempt + 1) rem
      ⟨t.attempts + 1, 20 :: t.sleeps, t.result⟩
    | .errOther m =>
      if attempt = max_retries - 1 then ⟨1, [], .raised m⟩
      else
        let t := genGo behav (attempt + 1) rem
        ⟨t.attempts + 1, 5 :: t.sleeps, t.result⟩

/-- Embedding of `generate_data`, parameterised by what the model call
does on each attempt. -/
def generate_data_run (calls : Nat → CallResult) : GenTrace :=
  genGo (fun i => attemptOutcome (calls i)) 0 max_retries

/-- A model call that always raises a transient server error. -/
def serverAlwaysCalls (msg : String) : Nat → CallResult :=
  fun _ => .raiseServer msg

/-- A model call that always raises a non-server exception. -/
def otherAlwaysCalls (msg : String) : Nat → CallResult :=
  fun _ => .raiseOther msg

/-! ## HTML assembly (`translate_chapters.main`)

Reading and vocabulary table rows use `item.get(key, '')` (empty-string
default), exercise cards use `item.get(key, 'N/A')`, the chapter summary
uses `lesson_data.get("chapter_summary", "Not available.")`.  Fragments
are accumulated with `"".join` (tables) and `+=` (cards), i.e. joined with
no separator, in source order. -/

/-- Does `pat` occur as a substring of `s`? -/
def hasSub (pat : List Char) : List Char → Bool
  | [] => startsWithList pat []
  | c :: cs => startsWithList pat (c :: cs) || hasSub pat cs

/-- Does `s` contain `pat` (Python `pat in s`)? -/
def strContains (s pat : String) : Bool :=
  hasSub pat.toList s.toList

/-- Python `str.replace`: replace every non-overlapping occurrence of
`pat`, scanning left to right; the fuel is an upper bound on the scan
steps (one character is consumed per step). -/
def replaceFuel (pat rep : List Char) : Nat → List Char → List Char
  | _, [] => []
  | 0, s => s
  | Nat.succ n, c :: cs =>
    if startsWithList pat (c :: cs) then
      rep ++ replaceFuel pat rep n (cs.drop (pat.length - 1))
    else c :: replaceFuel pat rep n cs

/-- Python `s.replace(pat, rep)` on strings (for non-empty `pat`). -/
def pyReplace (s pat rep : String) : String :=
  String.mk (replaceFuel pat.toList rep.toList s.toList.length s.toList)

mutual

/-- Python `repr()` of a JSON-shaped value (used by `str()` for
containers). -/
def pyRepr : PyVal → String
  | .str s => "\x27" ++ s ++ "\x27"
  | .int n => toString n
  | .bool true => "True"
  | .bool false => "False"
  | .none_ => "None"
  | .list xs => "[" ++ pyReprList xs ++ "]"
  | .dict kvs => "\x7b" ++ pyReprDict kvs ++ "\x7d"

/-- Comma-separated reprs of list elements. -/
def pyReprList : List PyVal → String
  | [] => ""
  | [x] => pyRepr x
  | x :: xs => pyRepr x ++ ", " ++ pyReprList xs

/-- Comma-separated reprs of dict entries. -/
def pyReprDict : List (String × PyVal) → String
  | [] => ""
  | [(k, v)] => "\x27" ++ k ++ "\x27: " ++ pyRepr v
  | (k, v) :: kvs => "\x27" ++ k ++ "\x27: " ++ pyRepr v ++ ", " ++ pyReprDict kvs

end

/-- Python `str()` / f-string conversion of a value. -/
def pyStr : PyVal → String
  | .str s => s
  | v => pyRepr v

/-- Python `value.get(key, default)`: a dict lookup falling back to the
default; on a non-dict value the attribute access raises. -/
def pyGetD (v : PyVal) (k : String) (dflt : PyVal) : Except PyExc PyVal :=
  match v with
  | .dict kvs =>
    match kvs.find? (fun kv => kv.1 == k) with
    | some kv => .ok kv.2
    | none => .ok dflt
  | _ => .error ⟨.AttributeError, "no attribute get"⟩

/-- Python `for item in value`: iteration over a JSON-shaped value
(lists yield elements, strings characters, dicts keys). -/
def pyIter (v : PyVal) : Except PyExc (List PyVal) :=
  match v with
  | .list xs => .ok xs
  | .str s => .ok (s.toList.map (fun c => .str (String.mk [c])))
  | .dict kvs => .ok (kvs.map (fun kv => .str kv.1))
  | _ => .error ⟨.AttributeError, "not iterable"⟩

/-- One reading-content table row (defaults are the empty string). -/
def readingRow (item : PyVal) : Except PyExc String := do
  let t ← pyGetD item "telugu" (.str "")
  let p ← pyGetD item "pronunciation" (.str "")
  let m ← pyGetD item "meaning" (.str "")
  return "<tr><td>" ++ pyStr t ++ "</td><td>" ++ pyStr p ++ "</td><td>" ++ pyStr m ++ "</td></tr>"

/-- One vocabulary table row (defaults are the empty string). -/
def vocabRow (item : PyVal) : Except PyExc String := do
  let t ← pyGetD item "telugu_word" (.str "")
  let p ← pyGetD item "pronunciation" (.str "")
  let m ← pyGetD item "meaning" (.str "")
  return "<tr><td>" ++ pyStr t ++ "</td><td>" ++ pyStr p ++ "</td><td>" ++ pyStr m ++ "</td></tr>"

/-- `"".join` of the reading rows of `lesson_data["reading_content"]`. -/
def readingRowsHtml (v : PyVal) : Except PyExc String := do
  let items ← pyIter v
  let rows ← items.mapM readingRow
  return strJoin rows

/-- `"".join` of the vocabulary rows of `lesson_data["vocabulary"]`. -/
def vocabRowsHtml (v : PyVal) : Except PyExc String := do
  let items ← pyIter v
  let rows ← items.mapM vocabRow
  return strJoin rows

/-- One exercise card fragment (defaults are the literal `N/A`). -/
def exerciseCard (item : PyVal) : Except PyExc String := do
  let qt ← pyGetD item "question_telugu" (.str "N/A")
  let qp ← pyGetD item "question_pronunciation" (.str "N/A")
  let qm ← pyGetD item "question_meaning" (.str "N/A")
  let at_ ← pyGetD item "answer_telugu" (.str "N/A")
  let ap ← pyGetD item "answer_pronunciation" (.str "N/A")
  return "\n                <div class=\"exercise-card\">\n                    <div class=\"question\">Q: "
    ++ pyStr qt
    ++ "</div>\n                    <p><strong>Pronunciation:</strong> "
    ++ pyStr qp
    ++ "</p>\n                    <p><strong>Meaning:</strong> "
    ++ pyStr qm
    ++ "</p>\n                    <div class=\"answer\">\n                        <strong>Answer (Telugu):</strong> "
    ++ pyStr at_
    ++ "<br>\n                        <strong>Answer (Pronunciation):</strong> "
    ++ pyStr ap
    ++ "\n                    </div>\n                </div>\n                "

/-- The `exercise_html_content += ...` accumulation loop. -/
def exerciseCardsFold : List PyVal → String → Except PyExc String
  | [], acc => .ok acc
  | i :: is_, acc => do
    let c ← exerciseCard i
    exerciseCardsFold is_ (acc ++ c)

/-- The exercise-card block built from `exercise_data["exercises"]`. -/
def exerciseCardsHtml (v : PyVal) : Except PyExc String := do
  let items ← pyIter v
  exerciseCardsFold items ""

/-- Template placeholder for the chapter topic. -/
def phTopic : String := "\x7b\x7bCHAPTER_TOPIC\x7d\x7d"

/-- Template placeholder for the chapter summary. -/
def phSummary : String := "\x7b\x7bCHAPTER_SUMMARY\x7d\x7d"

/-- Template placeholder for the reading table body. -/
def phReading : String := "\x7b\x7bREADING_CONTENT\x7d\x7d"

/-- Template placeholder for the vocabulary table body. -/
def phVocab : String := "\x7b\x7bVOCABULARY_CONTENT\x7d\x7d"

/-- Template placeholder for the exercise cards. -/
def phExercise : String := "\x7b\x7bEXERCISE_CONTENT\x7d\x7d"

/-- One entry of `config['chapters']`. -/
structure Chapter where
  folder : String
  topic : Option String
  start_page : Nat
  end_page : Nat

/-- The lesson HTML document: template with topic, summary, reading and
vocabulary substituted, in the order of the source. -/
def lessonHtmlDoc (tmpl : String) (ch : Chapter) (d : PyVal) : Except PyExc String := do
  let rc ← pyGetD d "reading_content" (.list [])
  let reading ← readingRowsHtml rc
  let vc ← pyGetD d "vocabulary" (.list [])
  let vocab ← vocabRowsHtml vc
  let summary ← pyGetD d "chapter_summary" (.str "Not available.")
  return pyReplace (pyReplace (pyReplace (pyReplace tmpl phTopic (ch.topic.getD ""))
    phSummary (pyStr summary)) phReading reading) phVocab vocab

/-- The exercise HTML document: template with topic and cards substituted. -/
def exerciseHtmlDoc (tmpl : String) (ch : Chapter) (d : PyVal) : Except PyExc String := do
  let cards ← exerciseCardsHtml (← pyGetD d "exercises" (.list []))
  return pyReplace (pyReplace tmpl phTopic (ch.topic.getD "")) phExercise cards

/-! ## Pipeline driver (`translate_chapters.main` chapter loop)

Per chapter: generate lesson data (`continue` on a falsy result), fill and
write `lesson.html`, generate exercise data (`continue` on falsy), fill
and write `exercise.html`, then `time.sleep(60)`.  Any exception inside
the `try` is caught at the chapter boundary, logged with the chapter
folder and the error message, and the loop moves to the next chapter. -/

/-- Python truthiness of a JSON-shaped value (`if not lesson_data`). -/
def pyFalsy : PyVal → Bool
  | .none_ => true
  | .bool b => !b
  | .int n => n == 0
  | .str s => s == ""
  | .list xs => xs.isEmpty
  | .dict kvs => kvs.isEmpty

/-- The chapter-boundary error log line. -/
def chapterErrLog (folder msg : String) : String :=
  "❌ An unexpected error occurred for chapter " ++ folder ++ ": " ++ msg

/-- The `"❌ Failed."` log line printed when generated data is falsy. -/
def failedLog : String := "❌ Failed."

/-- What the external model calls do for one chapter's two
`generate_data` invocations. -/
structure ChapterBehavior where
  lessonCalls : Nat → CallResult
  exerciseCalls : Nat → CallResult

/-- Observable trace of processing one chapter: the files written (path
and contents, in order), the failure log lines, and whether the final
60-second sleep ran. -/
structure ChapterTrace where
  writes : List (String × String)
  logs : List String
  slept60 : Bool
deriving DecidableEq

/-- Embedding of one iteration of the chapter loop of `main`, given the
lesson and exercise templates. -/
def processChapter (tl te : String) (ch : Chapter) (b : ChapterBehavior) : ChapterTrace :=
  match (generate_data_run b.lessonCalls).result with
  | .raised m => ⟨[], [chapterErrLog ch.folder m], false⟩
  | .retNone => ⟨[], [failedLog], false⟩
  | .retSome d =>
    if pyFalsy d then ⟨[], [failedLog], false⟩
    else
      match lessonHtmlDoc tl ch d with
      | .error e => ⟨[], [chapterErrLog ch.folder e.msg], false⟩
      | .ok lhtml =>
        let lw := ("class5/" ++ ch.folder ++ "/lesson.html", lhtml)
        match (generate_data_run b.exerciseCalls).result with
        | .raised m => ⟨[lw], [chapterErrLog ch.folder m], false⟩
        | .retNone => ⟨[lw], [failedLog], false⟩
        | .retSome ed =>
          if pyFalsy ed then ⟨[lw], [failedLog], false⟩
          else
            match exerciseHtmlDoc te ch ed with
            | .error e => ⟨[lw], [chapterErrLog ch.folder e.msg], false⟩
            | .ok ehtml =>
              ⟨[lw, ("class5/" ++ ch.folder ++ "/exercise.html", ehtml)], [], true⟩

/-- The `for chapter in config['chapters']` loop: chapters strictly in
listed order, one trace each. -/
def runMain (tl te : String) (b : Chapter → ChapterBehavior) : List Chapter → List ChapterTrace
  | [] => []
  | ch :: chs => processChapter tl te ch (b ch) :: runMain tl te b chs

theorem runMain_append (tl te : String) (b : Chapter → ChapterBehavior)
    (xs ys : List Chapter) :
    runMain tl te b (xs ++ ys) = runMain tl te b xs ++ runMain tl te b ys := by
  induction xs with
  | nil => rfl
  | cons x xs ih =>
    show processChapter tl te x (b x) :: runMain tl te b (xs ++ ys) = _
    rw [ih]
    rfl

/-! ## Claim theorems -/

/-- C1 counterexample: the page locator pattern for page 67 does NOT match
the zero-padded filename `"page-067.png"` (the `67` is preceded by the
digit `0`), contradicting the claimed match. -/
theorem locator_zero_padded_not_matched :
    pageNumMatches 67 "page-067.png" = false := by decide

/-- C1 (amended): the page locator matches exactly the filenames containing
the page number as a standalone numeric token — never as a substring of a
larger number, including the zero-padded form: page 67 matches `"67.txt"`
but matches neither `"page-067.png"` nor `"167.txt"`, and page 6 does not
match `"67.txt"`. -/
theorem locator_standalone_token_matching :
    (∀ p f, pageNumMatches p f = true ↔ standaloneToken p f) ∧
    pageNumMatches 67 "67.txt" = true ∧
    pageNumMatches 67 "page-067.png" = false ∧
    pageNumMatches 67 "167.txt" = false ∧
    pageNumMatches 6 "67.txt" = false :=
  ⟨pageNumMatches_iff, by decide, by decide, by decide, by decide⟩

/-- C2 counterexample: when every attempt raises a transient server error,
`generate_data` runs 3 attempts with a 20-second sleep after each, and then
returns `None` — the exception is NOT propagated to the caller. -/
theorem retry_server_exhaustion_returns_none :
    generate_data_run (serverAlwaysCalls "503 overloaded") =
      ⟨3, [20, 20, 20], GenResult.retNone⟩ ∧
    GenResult.isRaised (generate_data_run (serverAlwaysCalls "503 overloaded")).result = false :=
  ⟨rfl, rfl⟩

/-- C2 (amended): when every attempt raises a transient server error the
request is attempted exactly 3 times with a 20-second delay after each of
the three failures, and `generate_data` then returns `None` (no exception
propagated); only for non-server exceptions is the exception propagated,
on the third attempt, with 5-second delays after the first two failures. -/
theorem retry_bound_delays_and_outcome (m : String) :
    generate_data_run (serverAlwaysCalls m) = ⟨3, [20, 20, 20], GenResult.retNone⟩ ∧
    generate_data_run (otherAlwaysCalls m) = ⟨3, [5, 5], GenResult.raised m⟩ :=
  ⟨rfl, rfl⟩

/-- C3 counterexample: the error raised for a response with no brace pair
and the error raised for malformed JSON inside the braces have the SAME
kind (`json.JSONDecodeError`), not distinct kinds. -/
theorem json_missing_brace_same_kind :
    exceptKind (parse_model_response "no braces here") = some PyExcKind.JSONDecodeError ∧
    exceptKind (parse_model_response "x \x7b bad \x7d y") = some PyExcKind.JSONDecodeError :=
  ⟨rfl, rfl⟩

/-- C3 (amended): the parser takes the substring from the first brace to
the last brace, so prose around the JSON block is tolerated
(`"blah {\"a\":1} blah"` yields the object); a response with no brace
raises a `json.JSONDecodeError` with a dedicated message, which is the
same exception kind as the one raised for malformed JSON inside the
braces (only the messages differ). -/
theorem json_extraction_and_error_kinds :
    parse_model_response "blah \x7b\"a\":1\x7d blah" = .ok (PyVal.dict [("a", PyVal.int 1)]) ∧
    parse_model_response "no braces here" =
      .error ⟨PyExcKind.JSONDecodeError, "Could not find JSON object in response."⟩ ∧
    parse_model_response "x \x7b bad \x7d y" =
      .error ⟨PyExcKind.JSONDecodeError, "Expecting value"⟩ ∧
    exceptKind (parse_model_response "no braces here") =
      exceptKind (parse_model_response "x \x7b bad \x7d y") :=
  ⟨rfl, rfl, rfl, rfl⟩

/-- C8: output paths are a fixed function of chapter folder and document
kind, independent of the input directory contents, and replaying the same
write list over any filesystem state is idempotent, so a second identical
run overwrites the first with byte-identical files. -/
theorem output_writes_deterministic_idempotent (d d' : InputDir) (fs : FS) :
    (runWrites d).map Prod.fst =
      [outputPath "06_Shataka_Padyalu" "lesson.md", outputPath "06_Shataka_Padyalu" "exercise.md",
       outputPath "07_Sankranthi_Sandesham" "lesson.md", outputPath "07_Sankranthi_Sandesham" "exercise.md",
       outputPath "08_Kanuvippu" "lesson.md", outputPath "08_Kanuvippu" "exercise.md",
       outputPath "09_Ramappa" "lesson.md", outputPath "09_Ramappa" "exercise.md",
       outputPath "10_Shibi_Chakravarti" "lesson.md", outputPath "10_Shibi_Chakravarti" "exercise.md"] ∧
    (runWrites d).map Prod.fst = (runWrites d').map Prod.fst ∧
    applyWrites (applyWrites fs (runWrites d)) (runWrites d) = applyWrites fs (runWrites d) :=
  ⟨rfl, rfl, applyWrites_idem _ _⟩

/-- C10: `get_ocr_text` is a total function whose two failure outcomes are
distinguishable: when neither image filename candidate exists it returns
the blank placeholder `"\n\n\n\n"`, and when an image is found but OCR
raises it returns `""`; the two values differ. -/
theorem ocr_text_failure_outcomes (d : ImgDir) (p : Nat) :
    ((∀ c ∈ ocrCandidates p, d.pathExists ("scanned_images/" ++ c) = false) →
      get_ocr_text d p = "\n\n\n\n") ∧
    (∀ c, (ocrCandidates p).find? (fun c => d.pathExists ("scanned_images/" ++ c)) = some c →
      d.ocr ("scanned_images/" ++ c) = none → get_ocr_text d p = "") ∧
    ("\n\n\n\n" : String) ≠ "" := by
  refine ⟨?_, ?_, by decide⟩
  · intro h
    unfold get_ocr_text
    have hn : (ocrCandidates p).find? (fun c => d.pathExists ("scanned_images/" ++ c)) = none := by
      rw [List.find?_eq_none]
      intro c hc
      simp [h c hc]
    rw [hn]
  · intro c hfind hocr
    unfold get_ocr_text
    rw [hfind]
    show (match d.ocr ("scanned_images/" ++ c) with | some text => text | none => "") = ""
    rw [hocr]

/-- An image store with no files at all. -/
def imgNone : ImgDir := ⟨fun _ => false, fun _ => none⟩

/-- An image store where every path exists but OCR always raises. -/
def imgErr : ImgDir := ⟨fun _ => true, fun _ => none⟩

/-- Witness for C10 at page 5 on concrete image stores. -/
theorem ocr_text_failure_outcomes_witness :
    get_ocr_text imgNone 5 = "\n\n\n\n" ∧ get_ocr_text imgErr 5 = "" :=
  ⟨(ocr_text_failure_outcomes imgNone 5).1 (fun c _ => rfl),
   (ocr_text_failure_outcomes imgErr 5).2.1 "page-005.png" rfl rfl⟩

/-- C4: each chapter document is the title header followed by exactly one
page-delimiter block per page of the inclusive range, in ascending page
order; a page with empty content still contributes its delimiter block,
and the document starts with a top-level `"# "` header.  The exercise
document has the same shape over its own range. -/
theorem markdown_chapter_document_structure (content : Nat → String) (ls le es ee : Nat)
    (h1 : ls ≤ le) (h2 : es ≤ ee) :
    full_lesson_text content ls le =
      lessonHeader ls le ++ strJoin ((pageRange ls le).map (fun p => pageDelim p ++ content p)) ∧
    (pageRange ls le).length = le - ls + 1 ∧
    (∀ i (hi : i < (pageRange ls le).length), (pageRange ls le).get ⟨i, hi⟩ = ls + i) ∧
    (∀ p, p ∈ pageRange ls le ↔ ls ≤ p ∧ p ≤ le) ∧
    (∃ rest, full_lesson_text content ls le = "# " ++ rest) ∧
    full_exercise_text content es ee =
      exerciseHeader es ee ++ strJoin ((pageRange es ee).map (fun p => pageDelim p ++ content p)) ∧
    (pageRange es ee).length = ee - es + 1 ∧
    (∃ rest, full_exercise_text content es ee = "# " ++ rest) := by
  have hjoinL : full_lesson_text content ls le =
      lessonHeader ls le ++ strJoin ((pageRange ls le).map (fun p => pageDelim p ++ content p)) := by
    unfold full_lesson_text
    exact foldl_append_eq_join (fun p => pageDelim p ++ content p) (pageRange ls le) _
  have hjoinE : full_exercise_text content es ee =
      exerciseHeader es ee ++ strJoin ((pageRange es ee).map (fun p => pageDelim p ++ content p)) := by
    unfold full_exercise_text
    exact foldl_append_eq_join (fun p => pageDelim p ++ content p) (pageRange es ee) _
  refine ⟨hjoinL, ?_, ?_, ?_, ?_, hjoinE, ?_, ?_⟩
  · rw [pageRange, List.length_range']
    omega
  · intro i hi
    have hi' : i < (List.range' ls (le + 1 - ls)).length := by simpa [pageRange] using hi
    have := @List.getElem_range'_1 ls (le + 1 - ls) i hi'
    simpa [pageRange, List.get_eq_getElem] using this
  · intro p
    rw [pageRange, List.mem_range'_1]
    omega
  · refine ⟨"📖 Lesson Content (" ++ toString ls ++ "-" ++ toString le ++ ")\n\n" ++
      strJoin ((pageRange ls le).map (fun p => pageDelim p ++ content p)), ?_⟩
    rw [hjoinL]
    show ((((("# " ++ "📖 Lesson Content (") ++ toString ls) ++ "-") ++ toString le) ++ ")\n\n") ++
      strJoin ((pageRange ls le).map (fun p => pageDelim p ++ content p)) = _
    simp only [String.append_assoc]
  · rw [pageRange, List.length_range']
    omega
  · refine ⟨"✍️ Exercises (" ++ toString es ++ "-" ++ toString ee ++ ")\n\n" ++
      strJoin ((pageRange es ee).map (fun p => pageDelim p ++ content p)), ?_⟩
    rw [hjoinE]
    show ((((("# " ++ "✍️ Exercises (") ++ toString es) ++ "-") ++ toString ee) ++ ")\n\n") ++
      strJoin ((pageRange es ee).map (fun p => pageDelim p ++ content p)) = _
    simp only [String.append_assoc]

/-- Witness for C4 at the first configured chapter (lesson pages 67-70,
exercise pages 70-74). -/
theorem markdown_chapter_document_structure_witness :
    (pageRange 67 70).length = 70 - 67 + 1 ∧
    (∀ p, p ∈ pageRange 67 70 ↔ 67 ≤ p ∧ p ≤ 70) ∧
    (∃ rest, full_lesson_text (fun _ => "") 67 70 = "# " ++ rest) :=
  ⟨(markdown_chapter_document_structure (fun _ => "") 67 70 70 74 (by decide) (by decide)).2.1,
   (markdown_chapter_document_structure (fun _ => "") 67 70 70 74 (by decide) (by decide)).2.2.2.1,
   (markdown_chapter_document_structure (fun _ => "") 67 70 70 74 (by decide) (by decide)).2.2.2.2.1⟩

/-- C9: when the configured input directory does not exist,
`get_file_content` logs the missing-folder error and returns `""` for
every page, and the assembled markdown documents are complete and
well-formed: header plus one bare page-delimiter block per page. -/
theorem missing_input_dir_behavior (d : InputDir) (h : d.dirExists = false) :
    (∀ p, get_file_content d p = "") ∧
    (∀ p, (get_file_content_run d p).logs = [dirMissingLog]) ∧
    (∀ ls le, full_lesson_text (fun p => get_file_content d p) ls le =
      lessonHeader ls le ++ strJoin ((pageRange ls le).map pageDelim)) ∧
    (∀ es ee, full_exercise_text (fun p => get_file_content d p) es ee =
      exerciseHeader es ee ++ strJoin ((pageRange es ee).map pageDelim)) := by
  have hc : ∀ p, get_file_content d p = "" := by
    intro p
    unfold get_file_content get_file_content_run
    rw [h]
    rfl
  have hfun : (fun p => pageDelim p ++ get_file_content d p) = fun p => pageDelim p := by
    funext p
    rw [hc p, String.append_empty]
  refine ⟨hc, ?_, ?_, ?_⟩
  · intro p
    unfold get_file_content_run
    rw [h]
    rfl
  · intro ls le
    unfold full_lesson_text
    rw [foldl_append_eq_join (fun p => pageDelim p ++ get_file_content d p) (pageRange ls le), hfun]
  · intro es ee
    unfold full_exercise_text
    rw [foldl_append_eq_join (fun p => pageDelim p ++ get_file_content d p) (pageRange es ee), hfun]

/-- An input directory that does not exist. -/
def missingDir : InputDir := ⟨false, [], fun _ => none⟩

/-- Witness for C9 on a concrete missing directory. -/
theorem missing_input_dir_behavior_witness :
    get_file_content missingDir 67 = "" ∧
    (get_file_content_run missingDir 67).logs = [dirMissingLog] :=
  ⟨(missing_input_dir_behavior missingDir rfl).1 67,
   (missing_input_dir_behavior missingDir rfl).2.1 67⟩

/-- C5: chapters are processed strictly in listed order; a chapter whose
exercise-stage generation raises is caught at the chapter boundary, its
already-written `lesson.html` is kept (no rollback), the failure is logged
with the chapter folder and the error detail, and the surrounding chapters
are processed unaffected. -/
theorem chapter_failure_isolation (tl te : String) (pre post : List Chapter) (ch : Chapter)
    (b : Chapter → ChapterBehavior) (d : PyVal) (lh m : String)
    (h1 : (generate_data_run (b ch).lessonCalls).result = GenResult.retSome d)
    (h2 : pyFalsy d = false)
    (h3 : lessonHtmlDoc tl ch d = .ok lh)
    (h4 : (generate_data_run (b ch).exerciseCalls).result = GenResult.raised m) :
    runMain tl te b (pre ++ ch :: post) =
      runMain tl te b pre ++
        ChapterTrace.mk [("class5/" ++ ch.folder ++ "/lesson.html", lh)]
          [chapterErrLog ch.folder m] false :: runMain tl te b post ∧
    chapterErrLog ch.folder m =
      "❌ An unexpected error occurred for chapter " ++ ch.folder ++ ": " ++ m := by
  constructor
  · rw [runMain_append]
    show runMain tl te b pre ++ processChapter tl te ch (b ch) :: runMain tl te b post = _
    have hmid : processChapter tl te ch (b ch) =
        ⟨[("class5/" ++ ch.folder ++ "/lesson.html", lh)], [chapterErrLog ch.folder m], false⟩ := by
      unfold processChapter
      rw [h1]
      simp only [h2, Bool.false_eq_true, if_false]
      rw [h3, h4]
    rw [hmid]
  · rfl

/-- Model calls whose response parses to a one-field summary object. -/
def wLessonCalls : Nat → CallResult := fun _ => .resp "\x7b\"chapter_summary\": \"S\"\x7d"

/-- A concrete chapter configuration entry. -/
def wChapter : Chapter := ⟨"06_Shataka_Padyalu", some "Padyalu", 67, 70⟩

/-- A second concrete chapter configuration entry. -/
def wChapter2 : Chapter := ⟨"07_Sankranthi_Sandesham", some "Sandesham", 75, 76⟩

/-- Behavior: lesson generation succeeds, exercise generation keeps
raising a non-server exception. -/
def wFailBehavior : ChapterBehavior := ⟨wLessonCalls, otherAlwaysCalls "boom"⟩

/-- Witness for C5: a two-chapter run where the first chapter fails at the
exercise stage; the run keeps its `lesson.html` write, logs the folder and
error, and still processes the second chapter. -/
theorem chapter_failure_isolation_witness :
    runMain "T" "T" (fun _ => wFailBehavior) ([] ++ wChapter :: [wChapter2]) =
      runMain "T" "T" (fun _ => wFailBehavior) [] ++
        ChapterTrace.mk [("class5/" ++ wChapter.folder ++ "/lesson.html", "T")]
          [chapterErrLog wChapter.folder "boom"] false ::
          runMain "T" "T" (fun _ => wFailBehavior) [wChapter2] :=
  (chapter_failure_isolation "T" "T" [] [wChapter2] wChapter (fun _ => wFailBehavior)
    (PyVal.dict [("chapter_summary", PyVal.str "S")]) "T" "boom" rfl rfl rfl rfl).1

/-- C6 counterexample: a chapter whose exercise generation raises does NOT
run the 60-second pause — the sleep is inside the `try`, after both
writes, so it is skipped on every failure path. -/
theorem sleep_skipped_on_failure :
    (processChapter "T" "T" wChapter2
      (ChapterBehavior.mk wLessonCalls (otherAlwaysCalls "boom"))).slept60 = false := rfl

/-- C6 (amended): the 60-second pause after a chapter runs exactly when the
chapter fully succeeded, i.e. when both its documents were generated and
written (two file writes); on any failure path the pause is skipped. -/
theorem sleep_only_after_full_success (tl te : String) (ch : Chapter) (b : ChapterBehavior) :
    (processChapter tl te ch b).slept60 = true ↔
      (processChapter tl te ch b).writes.length = 2 := by
  unfold processChapter
  rcases (generate_data_run b.lessonCalls).result with d | _ | m
  · by_cases hf : pyFalsy d
    · simp [hf]
    · simp only [hf, Bool.false_eq_true, if_false]
      rcases lessonHtmlDoc tl ch d with e | lh
      · simp
      · rcases (generate_data_run b.exerciseCalls).result with ed | _ | m2
        · by_cases hf2 : pyFalsy ed
          · simp [hf2]
          · simp only [hf2, Bool.false_eq_true, if_false]
            rcases exerciseHtmlDoc te ch ed with e2 | eh
            · simp
            · simp
        · simp
        · simp
  · simp
  · simp

/-- Behavior where both generations succeed. -/
def wSuccessBehavior : ChapterBehavior := ⟨wLessonCalls, wLessonCalls⟩

/-- Witness for C6 on a fully successful chapter. -/
theorem sleep_only_after_full_success_witness :
    (processChapter "T" "T" wChapter wSuccessBehavior).slept60 = true ↔
      (processChapter "T" "T" wChapter wSuccessBehavior).writes.length = 2 :=
  sleep_only_after_full_success "T" "T" wChapter wSuccessBehavior

/-- C7 counterexample: a reading-content record with every field absent is
rendered as a row of EMPTY cells — `item.get(key, '')` defaults to the
empty string, not to any `"N/A"` / `"Not available"` placeholder. -/
theorem reading_row_empty_default :
    readingRow (PyVal.dict []) = .ok "<tr><td></td><td></td><td></td></tr>" ∧
    strContains "<tr><td></td><td></td><td></td></tr>" "N/A" = false ∧
    strContains "<tr><td></td><td></td><td></td></tr>" "Not available" = false :=
  ⟨rfl, rfl, rfl⟩

/-- The exercise card produced from a record with every field absent:
all five slots hold the literal `N/A`. -/
def cardAllNA : String :=
  "\n                <div class=\"exercise-card\">\n                    <div class=\"question\">Q: N/A</div>\n                    <p><strong>Pronunciation:</strong> N/A</p>\n                    <p><strong>Meaning:</strong> N/A</p>\n                    <div class=\"answer\">\n                        <strong>Answer (Telugu):</strong> N/A<br>\n                        <strong>Answer (Pronunciation):</strong> N/A\n                    </div>\n                </div>\n                "

set_option maxRecDepth 4000 in
/-- C7 (amended): absent fields of an exercise record are rendered as the
literal `N/A` and an absent chapter summary as `Not available.`, but
absent fields of reading and vocabulary records are rendered as the empty
string (not a placeholder); in all cases the fragments are joined with no
separator, in source order. -/
theorem html_field_default_rendering (a b : PyVal) (sa sb : String)
    (ha : exerciseCard a = .ok sa) (hb : exerciseCard b = .ok sb) :
    exerciseCard (PyVal.dict []) = .ok cardAllNA ∧
    strContains cardAllNA "N/A" = true ∧
    readingRow (PyVal.dict []) = .ok "<tr><td></td><td></td><td></td></tr>" ∧
    vocabRow (PyVal.dict []) = .ok "<tr><td></td><td></td><td></td></tr>" ∧
    (∀ ch : Chapter, lessonHtmlDoc phSummary ch (PyVal.dict [("reading_content", PyVal.list [])]) =
      .ok "Not available.") ∧
    exerciseCardsHtml (PyVal.list [a, b]) = .ok (sa ++ sb) := by
  refine ⟨rfl, rfl, rfl, rfl, fun ch => rfl, ?_⟩
  unfold exerciseCardsHtml
  show exerciseCardsFold [a, b] "" = Except.ok (sa ++ sb)
  unfold exerciseCardsFold
  rw [ha]
  show exerciseCardsFold [b] ("" ++ sa) = Except.ok (sa ++ sb)
  unfold exerciseCardsFold
  rw [hb]
  show Except.ok (("" ++ sa) ++ sb) = Except.ok (sa ++ sb)
  rw [String.empty_append]

set_option maxRecDepth 4000 in
/-- Witness for C7: two all-absent exercise records yield the two `N/A`
cards concatenated with no separator. -/
theorem html_field_default_rendering_witness :
    exerciseCardsHtml (PyVal.list [PyVal.dict [], PyVal.dict []]) = .ok (cardAllNA ++ cardAllNA) :=
  (html_field_default_rendering (PyVal.dict []) (PyVal.dict []) cardAllNA cardAllNA
    rfl rfl).2.2.2.2.2
